import Mathlib

/-!
Verification development for the VisaStatusMonitor polling core.

The definitions below are a shallow embedding of the Python sources:
  backend/app/plugins/base_plugin.py    (QueryResult, BasePlugin.safe_query_status)
  backend/app/plugins/czech_plugin.py   (CzechPlugin._simulate_query_result)
  backend/app/plugins/plugin_manager.py (PluginManager)
  backend/app/services/query_engine.py  (QueryEngine)
  backend/app/core/scheduler.py         (VisaScheduler)

Conventions of the embedding:
  * Python strings are Lean `String` (a structure over `List Char`);
    `str.upper` / `str.lower` are modelled with `Char.toUpper` / `Char.toLower`
    mapped over the characters (the inputs in this code base are ASCII).
  * `datetime.utcnow()` timestamps are abstract values passed in as
    parameters (`Nat` for comparable instants, `String` for formatted text).
  * A Python method that may raise is modelled as returning
    `Except String _` (the `String` is `str(e)`); total methods are plain
    functions.
  * Database effects of the query engine are modelled as explicit state
    (`EngineState`); a commit that may fail is modelled by a `Bool`
    parameter saying whether that commit succeeds (Python catches the
    failure and rolls back, so a failed commit leaves the persisted state
    unchanged).
  * Calls to a collaborator are counted by instrumentation: functions that
    may invoke the underlying plugin query return the number of such
    invocations alongside their result, and the notification collaborator
    is modelled as an append-only list of notified entity ids.
-/

namespace VisaStatusMonitor

/-- Embeds `QueryResult` from base_plugin.py: the uniform result record every
plugin produces.  `status` is the outcome kind string, 'success' or 'error';
`query_timestamp` (set from `datetime.utcnow()` in `__init__`) is an abstract
instant supplied by the caller of each construction site. -/
structure QueryResult where
  status : String
  application_status : Option String := none
  details : Option String := none
  last_update : Option String := none
  raw_response : Option String := none
  error : Option String := none
  response_time_ms : Option Nat := none
  query_timestamp : Nat
deriving DecidableEq, Repr

/-- A country plugin, as the plugin contract of base_plugin.py sees it:
a syntactic validator and a query operation.  `query_status` may raise in
Python, so it is embedded as returning `Except String QueryResult` where the
error carries `str(e)`. -/
structure Plugin where
  validate_query_code : String → String → Bool
  query_status : String → String → Except String QueryResult

/-- Embeds `BasePlugin.safe_query_status` (base_plugin.py, lines 187-228).
`elapsed_ms` is the wall-clock measurement taken by `_measure_response_time`
and `ts` the `datetime.utcnow()` instant stamped on a freshly constructed
error result.  The second component counts how many times the underlying
`query_status` was invoked (0 or 1), making "no network call" provable.
The Python body is one try/except: validation failure returns an error
result before any query; an exception from `query_status` is converted to
an error result carrying `str(e)`; nothing escapes. -/
def safe_query_status (p : Plugin) (elapsed_ms ts : Nat)
    (query_code query_type : String) : QueryResult × Nat :=
  if p.validate_query_code query_code query_type then
    match p.query_status query_code query_type with
    | Except.ok r => ({ r with response_time_ms := some elapsed_ms }, 1)
    | Except.error e => ({ status := "error", error := some e, query_timestamp := ts }, 1)
  else
    ({ status := "error",
       error := some ("Invalid query code format for type " ++ query_type),
       query_timestamp := ts }, 0)

/-- Claim C3: for every (code, type) pair, safe_query_status runs the
validator first and, on failure, returns an error-kind QueryResult with zero
invocations of the underlying query_status (no network call); and every
exception raised by the underlying query_status is converted into an
error-kind QueryResult carrying the exception text.  The function is total
in the embedding, so it never raises. -/
theorem safe_query_status_isolation (p : Plugin) (elapsed_ms ts : Nat)
    (query_code query_type : String) :
    (p.validate_query_code query_code query_type = false →
      (safe_query_status p elapsed_ms ts query_code query_type).1.status = "error" ∧
      (safe_query_status p elapsed_ms ts query_code query_type).2 = 0) ∧
    (∀ e : String, p.validate_query_code query_code query_type = true →
      p.query_status query_code query_type = Except.error e →
      (safe_query_status p elapsed_ms ts query_code query_type).1.status = "error" ∧
      (safe_query_status p elapsed_ms ts query_code query_type).1.error = some e) := by
  constructor
  · intro hv
    simp [safe_query_status, hv]
  · intro e hv he
    simp [safe_query_status, hv, he]

/-- A concrete plugin instance used as input data in witnesses: it accepts
exactly the query type "visa" with a nonempty code, succeeds on code "OK"
and raises on every other accepted code. -/
def samplePlugin : Plugin where
  validate_query_code := fun code ty => code != "" && ty == "visa"
  query_status := fun code _ =>
    if code == "OK" then
      Except.ok { status := "success", application_status := some "processing",
                  query_timestamp := 0 }
    else
      Except.error "boom"

theorem safe_query_status_isolation_witness :
    ((safe_query_status samplePlugin 5 9 "" "visa").1.status = "error" ∧
     (safe_query_status samplePlugin 5 9 "" "visa").2 = 0) ∧
    ((safe_query_status samplePlugin 5 9 "BAD" "visa").1.status = "error" ∧
     (safe_query_status samplePlugin 5 9 "BAD" "visa").1.error = some "boom") :=
  ⟨(safe_query_status_isolation samplePlugin 5 9 "" "visa").1 (by decide),
   (safe_query_status_isolation samplePlugin 5 9 "BAD" "visa").2 "boom" (by decide) (by rfl)⟩

/-- Embeds the `status_scenarios` table of `CzechPlugin._simulate_query_result`
(czech_plugin.py, lines 398-409): ten (status, details) pairs indexed by the
last digit of the query code. -/
def czech_status_scenarios : List (String × String) :=
  [("not_found", "Application not found in the system"),
   ("processing", "Application is being processed"),
   ("under_review", "Application is under review"),
   ("processing", "Application is being processed"),
   ("approved", "Application has been approved"),
   ("ready_for_pickup", "Document is ready for pickup"),
   ("approved", "Application has been approved"),
   ("rejected", "Application has been rejected"),
   ("processing", "Application is being processed"),
   ("issued", "Document has been issued")]

/-- Embeds the `additional_details` dictionary lookup (with default the empty
string) of `CzechPlugin._simulate_query_result` (czech_plugin.py, lines
414-422). -/
def czech_additional_details (query_type status : String) : String :=
  if status = "not_found" then
    "Please check your application number and try again."
  else if status = "processing" then
    "Your " ++ query_type ++ " application is currently being processed. Expected processing time: 15-30 business days."
  else if status = "under_review" then
    "Your " ++ query_type ++ " application is under review by the immigration officer."
  else if status = "approved" then
    "Congratulations! Your " ++ query_type ++ " application has been approved."
  else if status = "rejected" then
    "Unfortunately, your " ++ query_type ++ " application has been rejected. Please check the rejection letter for details."
  else if status = "ready_for_pickup" then
    "Your " ++ query_type ++ " document is ready for pickup at the designated office."
  else if status = "issued" then
    "Your " ++ query_type ++ " document has been issued and sent to you."
  else ""

/-- Embeds `CzechPlugin._simulate_query_result` (czech_plugin.py, lines
382-430).  `query_code[-1]` raises IndexError on an empty string in Python,
so the embedding requires the code to be nonempty.  `last_digit` is
`int(query_code[-1]) if query_code[-1].isdigit() else 0`, always at most 9,
so the table index is always in range; `getD` never falls back to its
default.  `now_str` stands for the formatted `datetime.utcnow()` written
into `last_update`, and `ts` for the construction-time `query_timestamp`. -/
def czech_simulate_query_result (query_code query_type now_str : String)
    (ts : Nat) (h : query_code.data ≠ []) : QueryResult :=
  let c := query_code.data.getLast h
  let last_digit := if c.isDigit then c.toNat - 48 else 0
  let scenario := czech_status_scenarios.getD last_digit ("", "")
  { status := "success",
    application_status := some scenario.1,
    details := some (scenario.2 ++ " " ++ czech_additional_details query_type scenario.1),
    last_update := some now_str,
    raw_response := some ("Simulated response for " ++ query_code ++ " (" ++ query_type ++ ")"),
    query_timestamp := ts }

/-- Claim C8: the Czech plugin's simulated normalized status is a pure
function of the query code's final character: a final digit d selects the
d-th entry of the fixed ten-entry scenario table, any other final character
selects entry 0; consequently two simulations of codes with the same final
character (in particular, of the same code at different times) always yield
the same status. -/
theorem czech_simulation_deterministic
    (code1 code2 ty1 ty2 now1 now2 : String) (ts1 ts2 : Nat)
    (h1 : code1.data ≠ []) (h2 : code2.data ≠ [])
    (hlast : code1.data.getLast h1 = code2.data.getLast h2) :
    (czech_simulate_query_result code1 ty1 now1 ts1 h1).application_status
      = (czech_simulate_query_result code2 ty2 now2 ts2 h2).application_status ∧
    ((code1.data.getLast h1).isDigit = true →
      (czech_simulate_query_result code1 ty1 now1 ts1 h1).application_status
        = some (czech_status_scenarios.getD ((code1.data.getLast h1).toNat - 48) ("", "")).1) ∧
    ((code1.data.getLast h1).isDigit = false →
      (czech_simulate_query_result code1 ty1 now1 ts1 h1).application_status
        = some (czech_status_scenarios.getD 0 ("", "")).1) := by
  refine ⟨?_, ?_, ?_⟩
  · simp only [czech_simulate_query_result, hlast]
  · intro hd
    simp only [czech_simulate_query_result, hd, if_true]
  · intro hd
    simp only [czech_simulate_query_result, hd, Bool.false_eq_true, if_false]

theorem czech_simulation_deterministic_witness :
    (czech_simulate_query_result "PRG123456789" "visa" "2024-01-01 00:00:00" 0
        (by decide)).application_status
      = (czech_simulate_query_result "CZ999999" "passport" "2025-06-30 12:00:00" 77
        (by decide)).application_status ∧
    (("PRG123456789".data.getLast (by decide)).isDigit = true →
      (czech_simulate_query_result "PRG123456789" "visa" "2024-01-01 00:00:00" 0
          (by decide)).application_status
        = some (czech_status_scenarios.getD
            (("PRG123456789".data.getLast (by decide)).toNat - 48) ("", "")).1) ∧
    (("PRG123456789".data.getLast (by decide)).isDigit = false →
      (czech_simulate_query_result "PRG123456789" "visa" "2024-01-01 00:00:00" 0
          (by decide)).application_status
        = some (czech_status_scenarios.getD 0 ("", "")).1) :=
  czech_simulation_deterministic "PRG123456789" "CZ999999" "visa" "passport"
    "2024-01-01 00:00:00" "2025-06-30 12:00:00" 0 77 (by decide) (by decide) (by decide)

/-- Embeds Python `str.upper` for the ASCII country codes this code base
uses: `Char.toUpper` mapped over the characters. -/
def pyUpper (s : String) : String := String.mk (s.data.map Char.toUpper)

/-- Embeds `PluginManager` (plugin_manager.py): the `plugins` dict is an
association list from country-code key to plugin instance (keys as stored
by `_load_plugins`, i.e. whatever each plugin's `get_country_code` returns). -/
structure PluginManager where
  plugins : List (String × Plugin)

/-- Embeds `PluginManager.get_plugin` (plugin_manager.py, lines 69-79):
`self.plugins.get(country_code.upper())`. -/
def get_plugin (m : PluginManager) (country_code : String) : Option Plugin :=
  m.plugins.lookup (pyUpper country_code)

/-- Embeds `PluginManager.is_country_supported` (plugin_manager.py, lines
99-109): `country_code.upper() in self.plugins`. -/
def is_country_supported (m : PluginManager) (country_code : String) : Bool :=
  (m.plugins.lookup (pyUpper country_code)).isSome

/-- Embeds `PluginManager.validate_query_code` (plugin_manager.py, lines
159-176): false when no plugin is registered for the country, otherwise
delegation to the plugin's validator. -/
def manager_validate_query_code (m : PluginManager)
    (country_code query_code query_type : String) : Bool :=
  match get_plugin m country_code with
  | none => false
  | some p => p.validate_query_code query_code query_type

/-- Embeds `PluginManager.query_status` (plugin_manager.py, lines 178-198):
when no plugin is registered the manager constructs an error result whose
message interpolates the country code as given by the caller; otherwise it
delegates to `safe_query_status`.  As in `safe_query_status`, the second
component counts invocations of the underlying plugin `query_status`. -/
def manager_query_status (m : PluginManager) (elapsed_ms ts : Nat)
    (country_code query_code query_type : String) : QueryResult × Nat :=
  match get_plugin m country_code with
  | none =>
    ({ status := "error",
       error := some ("No plugin available for country: " ++ country_code),
       query_timestamp := ts }, 0)
  | some p => safe_query_status p elapsed_ms ts query_code query_type

/-- Claim C7: for every country with no registered plugin, the manager's
query operation returns an error-kind result whose error text says no plugin
is available for that country, with zero invocations of any plugin query.
The operation is a total function of the embedding, so it never raises. -/
theorem manager_query_status_unknown_country (m : PluginManager)
    (elapsed_ms ts : Nat) (country_code query_code query_type : String)
    (h : get_plugin m country_code = none) :
    (manager_query_status m elapsed_ms ts country_code query_code query_type).1.status
      = "error" ∧
    (manager_query_status m elapsed_ms ts country_code query_code query_type).1.error
      = some ("No plugin available for country: " ++ country_code) ∧
    (manager_query_status m elapsed_ms ts country_code query_code query_type).2 = 0 := by
  simp [manager_query_status, h]

/-- A concrete one-plugin registry used as input data in witnesses, mirroring
a loaded registry whose only plugin is keyed "CZ". -/
def sampleManager : PluginManager where
  plugins := [("CZ", samplePlugin)]

theorem manager_query_status_unknown_country_witness :
    (manager_query_status sampleManager 3 11 "XX" "PRG123456789" "visa").1.status
      = "error" ∧
    (manager_query_status sampleManager 3 11 "XX" "PRG123456789" "visa").1.error
      = some ("No plugin available for country: " ++ "XX") ∧
    (manager_query_status sampleManager 3 11 "XX" "PRG123456789" "visa").2 = 0 :=
  manager_query_status_unknown_country sampleManager 3 11 "XX" "PRG123456789" "visa"
    (by rfl)

theorem char_toUpper_toNat (n : Nat) (h : n.isValidChar) : (Char.ofNat n).toNat = n := by
  unfold Char.ofNat
  rw [dif_pos h]
  rfl

theorem char_toUpper_idem (c : Char) : c.toUpper.toUpper = c.toUpper := by
  simp only [Char.toUpper]
  split
  · next h =>
    have hv : (c.toNat - 32).isValidChar := by
      left
      omega
    split
    · next h2 =>
      exfalso
      rw [char_toUpper_toNat _ hv] at h2
      omega
    · rfl
  · next h => simp [h]

theorem pyUpper_idem (s : String) : pyUpper (pyUpper s) = pyUpper s := by
  simp only [pyUpper, List.map_map]
  have : Char.toUpper ∘ Char.toUpper = Char.toUpper := funext char_toUpper_idem
  rw [this]

/-- Claim C10 counterexample: the registry lookups are case-insensitive, but
`query_status` for an unknown country interpolates the caller's original
casing into the error message, so the call with "xx" and the call with its
uppercasing "XX" return different QueryResults. -/
theorem manager_case_insensitive_counterexample :
    pyUpper "xx" = "XX" ∧
    (manager_query_status sampleManager 0 0 "xx" "c" "visa").1
      ≠ (manager_query_status sampleManager 0 0 (pyUpper "xx") "c" "visa").1 := by
  constructor
  · rfl
  · decide

/-- Claim C10, amended: get_plugin, is_country_supported and
validate_query_code are invariant under uppercasing the country-code
argument, and query_status is invariant up to the error message: its outcome
kind always agrees, and the full result agrees whenever the country is
supported; for an unsupported country the two error results differ only in
the casing of the country code echoed in the error text. -/
theorem manager_case_insensitive (m : PluginManager)
    (elapsed_ms ts : Nat) (s query_code query_type : String) :
    get_plugin m (pyUpper s) = get_plugin m s ∧
    is_country_supported m (pyUpper s) = is_country_supported m s ∧
    manager_validate_query_code m (pyUpper s) query_code query_type
      = manager_validate_query_code m s query_code query_type ∧
    (manager_query_status m elapsed_ms ts (pyUpper s) query_code query_type).1.status
      = (manager_query_status m elapsed_ms ts s query_code query_type).1.status ∧
    (is_country_supported m s = true →
      manager_query_status m elapsed_ms ts (pyUpper s) query_code query_type
        = manager_query_status m elapsed_ms ts s query_code query_type) := by
  have hg : get_plugin m (pyUpper s) = get_plugin m s := by
    simp only [get_plugin, pyUpper_idem]
  refine ⟨hg, ?_, ?_, ?_, ?_⟩
  · simp only [is_country_supported, pyUpper_idem]
  · simp only [manager_validate_query_code, hg]
  · simp only [manager_query_status, hg]
    cases get_plugin m s <;> simp
  · intro hsup
    simp only [manager_query_status, hg]
    simp only [is_country_supported, Option.isSome_iff_exists] at hsup
    obtain ⟨p, hp⟩ := hsup
    simp only [get_plugin] at *
    rw [hp]

theorem manager_case_insensitive_witness :
    get_plugin sampleManager (pyUpper "cz") = get_plugin sampleManager "cz" ∧
    is_country_supported sampleManager (pyUpper "cz")
      = is_country_supported sampleManager "cz" ∧
    manager_validate_query_code sampleManager (pyUpper "cz") "OK" "visa"
      = manager_validate_query_code sampleManager "cz" "OK" "visa" ∧
    (manager_query_status sampleManager 1 2 (pyUpper "cz") "OK" "visa").1.status
      = (manager_query_status sampleManager 1 2 "cz" "OK" "visa").1.status ∧
    manager_query_status sampleManager 1 2 (pyUpper "cz") "OK" "visa"
      = manager_query_status sampleManager 1 2 "cz" "OK" "visa" :=
  have h := manager_case_insensitive sampleManager 1 2 "cz" "OK" "visa"
  ⟨h.1, h.2.1, h.2.2.1, h.2.2.2.1, h.2.2.2.2 (by decide)⟩

/-- Embeds the `Application` entity as the query engine reads and writes it
(models/application.py fields used by query_engine.py).  Timestamps are
abstract `Nat` instants; nullable columns are `Option`. -/
structure Application where
  id : Nat
  country_code : String
  query_code : String
  query_type : String
  latest_status : Option String
  latest_details : Option String
  last_checked : Option Nat
  last_status_change : Option Nat
deriving DecidableEq, Repr

/-- Embeds the `QueryLog` row constructed by
`QueryEngine._log_query_result` (query_engine.py, lines 79-88). -/
structure QueryLog where
  application_id : Nat
  status : String
  application_status : Option String
  details : Option String
  error_message : Option String
  raw_response : Option String
  response_time_ms : Option Nat
  query_timestamp : Nat
deriving DecidableEq, Repr

/-- The persisted state the query engine touches during one poll: the
entity row, the append-only query log, and the list of entity ids for which
the notification collaborator has been invoked
(`_trigger_status_change_notification`). -/
structure EngineState where
  app : Application
  logs : List QueryLog
  notifications : List Nat
deriving DecidableEq, Repr

/-- The `QueryLog(...)` construction inside `QueryEngine._log_query_result`
(query_engine.py, lines 79-88). -/
def mkQueryLog (app : Application) (r : QueryResult) : QueryLog :=
  { application_id := app.id,
    status := r.status,
    application_status := r.application_status,
    details := r.details,
    error_message := r.error,
    raw_response := r.raw_response,
    response_time_ms := r.response_time_ms,
    query_timestamp := r.query_timestamp }

/-- Embeds `QueryEngine._log_query_result` (query_engine.py, lines 70-97):
add the row and commit; a failing commit is caught, rolled back and only
logged, so the persisted state is unchanged and no error propagates.
`commit_ok` says whether this commit succeeds. -/
def log_query_result (commit_ok : Bool) (st : EngineState) (r : QueryResult) :
    EngineState :=
  if commit_ok then { st with logs := st.logs ++ [mkQueryLog st.app r] } else st

/-- Embeds `QueryEngine._update_application_status` (query_engine.py, lines
99-133): computes `status_changed`, always rewrites `latest_status`,
`latest_details`, `last_checked`, rewrites `last_status_change` only on a
change, commits, and after a successful commit invokes the notification
collaborator exactly when the status changed.  A failing commit is caught
and rolled back (entity unchanged, no notification, no propagation).
`commit_ok` says whether this commit succeeds. -/
def update_application_status (commit_ok : Bool) (st : EngineState)
    (r : QueryResult) : EngineState :=
  if commit_ok then
    let status_changed : Bool := st.app.latest_status != r.application_status
    let app' := { st.app with
      latest_status := r.application_status,
      latest_details := r.details,
      last_checked := some r.query_timestamp,
      last_status_change :=
        if status_changed then some r.query_timestamp else st.app.last_status_change }
    { st with
      app := app',
      notifications :=
        if status_changed then st.notifications ++ [st.app.id] else st.notifications }
  else st

/-- Embeds `QueryEngine.execute_query` (query_engine.py, lines 27-68) for a
poll whose registry call produced `r` (the registry call is total: it never
raises, see the safe_query_status and manager theorems, so the enclosing
except-branch of execute_query is unreachable and the log/update helpers
swallow their own failures).  Always logs the result; updates the entity
only for a success-kind result; returns `r` itself. -/
def execute_query (log_ok upd_ok : Bool) (st : EngineState) (r : QueryResult) :
    EngineState × QueryResult :=
  let st1 := log_query_result log_ok st r
  let st2 := if r.status = "success" then update_application_status upd_ok st1 r else st1
  (st2, r)

/-- Claim C1: for a poll with a success-kind result whose entity-update
commit goes through, if the result's normalized status equals the stored
latest_status then last_status_change is unchanged and the notification
collaborator is not invoked; if it differs, last_status_change becomes the
result's query timestamp and the collaborator is invoked exactly once. -/
theorem execute_query_change_detection (log_ok : Bool) (st : EngineState)
    (r : QueryResult) (hs : r.status = "success") :
    (st.app.latest_status = r.application_status →
      (execute_query log_ok true st r).1.app.last_status_change
        = st.app.last_status_change ∧
      (execute_query log_ok true st r).1.notifications = st.notifications) ∧
    (st.app.latest_status ≠ r.application_status →
      (execute_query log_ok true st r).1.app.last_status_change
        = some r.query_timestamp ∧
      (execute_query log_ok true st r).1.notifications
        = st.notifications ++ [st.app.id]) := by
  constructor
  · intro heq
    cases log_ok <;>
      simp [execute_query, log_query_result, update_application_status, hs, heq]
  · intro hne
    have hb : (st.app.latest_status != r.application_status) = true := by
      simpa using hne
    cases log_ok <;>
      simp [execute_query, log_query_result, update_application_status, hs, hb]

/-- Sample entity and poll results used as concrete inputs in witnesses. -/
def sampleApp : Application :=
  { id := 2, country_code := "CZ", query_code := "PRG123456789",
    query_type := "visa", latest_status := some "processing",
    latest_details := some "old", last_checked := some 10,
    last_status_change := some 4 }

def sampleState : EngineState :=
  { app := sampleApp, logs := [], notifications := [] }

def sampleSuccess : QueryResult :=
  { status := "success", application_status := some "approved",
    details := some "Application has been approved", query_timestamp := 42 }

def sampleError : QueryResult :=
  { status := "error", error := some "Network error: timeout",
    query_timestamp := 43 }

/-- A success result carrying the same status the sample entity already
stores, so its poll is a no-change observation. -/
def sampleSameStatus : QueryResult :=
  { status := "success", application_status := some "processing",
    details := some "still processing", query_timestamp := 50 }

theorem execute_query_change_detection_witness :
    ((execute_query true true sampleState sampleSameStatus).1.app.last_status_change
        = sampleState.app.last_status_change ∧
      (execute_query true true sampleState sampleSameStatus).1.notifications
        = sampleState.notifications) ∧
    ((execute_query true true sampleState sampleSuccess).1.app.last_status_change
        = some sampleSuccess.query_timestamp ∧
      (execute_query true true sampleState sampleSuccess).1.notifications
        = sampleState.notifications ++ [sampleState.app.id]) :=
  ⟨(execute_query_change_detection true sampleState sampleSameStatus (by rfl)).1 (by decide),
   (execute_query_change_detection true sampleState sampleSuccess (by rfl)).2 (by decide)⟩

/-- Claim C2: for a poll whose result is error-kind, execute_query leaves
every entity field unchanged (the whole entity row is preserved, so in
particular latest_status, latest_details, last_checked and
last_status_change are) and does not invoke the notification collaborator,
whatever the fate of the two commits. -/
theorem execute_query_error_frame (log_ok upd_ok : Bool) (st : EngineState)
    (r : QueryResult) (he : r.status = "error") :
    (execute_query log_ok upd_ok st r).1.app = st.app ∧
    (execute_query log_ok upd_ok st r).1.notifications = st.notifications := by
  have hns : ¬ r.status = "success" := by
    rw [he]
    decide
  cases log_ok <;> simp [execute_query, log_query_result, hns]

theorem execute_query_error_frame_witness :
    sampleError.status = "error" ∧
    (execute_query true true sampleState sampleError).1.app = sampleState.app ∧
    (execute_query true true sampleState sampleError).1.notifications
      = sampleState.notifications :=
  ⟨by rfl, execute_query_error_frame true true sampleState sampleError (by rfl)⟩

/-- Claim C4 counterexample: with a success-kind result, a failed log commit
and a successful entity commit, the poll appends no log row (the attempt is
silently lost), still applies the entity update, and returns the success
result itself — no persistence error is surfaced to the caller.  The two
writes are therefore not atomic as a pair. -/
theorem persistence_not_atomic :
    (execute_query false true sampleState sampleSuccess).1.logs = [] ∧
    (execute_query false true sampleState sampleSuccess).1.app.latest_status
      = some "approved" ∧
    (execute_query false true sampleState sampleSuccess).1.app ≠ sampleState.app ∧
    (execute_query false true sampleState sampleSuccess).2 = sampleSuccess := by
  refine ⟨by rfl, by rfl, by decide, by rfl⟩

/-- Claim C4, amended: the log append and the entity update are two
independent transactions, each rolled back on its own failure with the
failure swallowed: execute_query always returns the plugin result itself
(never a persistence error), the log grows by exactly the one row of this
attempt exactly when the log commit succeeds, and the resulting entity row
does not depend on whether the log commit succeeded. -/
theorem persistence_writes_independent (log_ok upd_ok : Bool)
    (st : EngineState) (r : QueryResult) :
    (execute_query log_ok upd_ok st r).2 = r ∧
    (execute_query log_ok upd_ok st r).1.logs
      = (if log_ok then st.logs ++ [mkQueryLog st.app r] else st.logs) ∧
    (execute_query false upd_ok st r).1.app = (execute_query true upd_ok st r).1.app := by
  refine ⟨by rfl, ?_, ?_⟩
  · by_cases hs : r.status = "success" <;>
      cases log_ok <;> cases upd_ok <;>
      simp [execute_query, log_query_result, update_application_status, hs]
  · by_cases hs : r.status = "success" <;>
      cases upd_ok <;>
      simp [execute_query, log_query_result, update_application_status, hs]

/-- Claim C6 counterexample: an entity whose stored status is unset (None)
polled with a success-kind result gets last_status_change set, and the
notification collaborator IS invoked for this initial unset-to-first-observed
transition (status_changed is true because None differs from the observed
status), contradicting the claim that the initial transition does not
notify. -/
theorem initial_transition_notifies :
    (execute_query true true
        { app := { sampleApp with latest_status := none, last_status_change := none },
          logs := [], notifications := [] } sampleSuccess).1.app.last_status_change
      = some 42 ∧
    (execute_query true true
        { app := { sampleApp with latest_status := none, last_status_change := none },
          logs := [], notifications := [] } sampleSuccess).1.notifications = [2] ∧
    ([2] : List Nat) ≠ [] := by
  refine ⟨by rfl, by rfl, by decide⟩

/-- Claim C6, amended: for an entity with unset stored status, a success-kind
poll (with the entity commit succeeding) updates last_status_change to the
result's timestamp AND invokes the notification collaborator exactly once —
the initial transition is treated like any other status change. -/
theorem initial_transition_updates_and_notifies (log_ok : Bool)
    (st : EngineState) (r : QueryResult) (hs : r.status = "success")
    (h0 : st.app.latest_status = none) (hr : r.application_status ≠ none) :
    (execute_query log_ok true st r).1.app.last_status_change
      = some r.query_timestamp ∧
    (execute_query log_ok true st r).1.notifications
      = st.notifications ++ [st.app.id] := by
  refine (execute_query_change_detection log_ok st r hs).2 ?_
  rw [h0]
  exact fun h => hr h.symm

theorem initial_transition_updates_and_notifies_witness :
    (execute_query true true
        { app := { sampleApp with latest_status := none, last_status_change := none },
          logs := [], notifications := [] } sampleSuccess).1.app.last_status_change
      = some sampleSuccess.query_timestamp ∧
    (execute_query true true
        { app := { sampleApp with latest_status := none, last_status_change := none },
          logs := [], notifications := [] } sampleSuccess).1.notifications
      = [] ++ [sampleApp.id] :=
  initial_transition_updates_and_notifies true
    { app := { sampleApp with latest_status := none, last_status_change := none },
      logs := [], notifications := [] } sampleSuccess (by rfl) (by rfl) (by decide)

/-- The ASCII whitespace Python `int(str)` tolerates around the number. -/
def isPySpace (c : Char) : Bool :=
  c == ' ' || c == '\t' || c == '\n' || c == '\r'

def pyStrip (s : List Char) : List Char :=
  ((s.dropWhile isPySpace).reverse.dropWhile isPySpace).reverse

def digitsVal (ds : List Char) : Nat :=
  ds.foldl (fun acc c => acc * 10 + (c.toNat - 48)) 0

/-- Embeds the Python builtin `int(str)` on the ASCII inputs this code base
handles: optional surrounding whitespace, an optional sign, then one or more
decimal digits; anything else raises ValueError, modelled as `none`. -/
def pyInt (s : List Char) : Option Int :=
  match pyStrip s with
  | [] => none
  | '+' :: ds =>
    if ds ≠ [] ∧ ds.all Char.isDigit then some (digitsVal ds : Int) else none
  | '-' :: ds =>
    if ds ≠ [] ∧ ds.all Char.isDigit then some (-(digitsVal ds : Int)) else none
  | ds => if ds.all Char.isDigit then some (digitsVal ds : Int) else none

/-- The `multipliers.get(unit, 3600)` dictionary lookup of
`VisaScheduler._parse_interval` (scheduler.py, lines 101-108). -/
def interval_multiplier (unit : Char) : Int :=
  if unit = 'm' then 60
  else if unit = 'h' then 3600
  else if unit = 'd' then 86400
  else if unit = 'w' then 604800
  else 3600

/-- Embeds `VisaScheduler._parse_interval` (scheduler.py, lines 89-108).
A missing interval (`None`) and the empty string are both falsy in Python
(`if not interval`), giving the one-hour default; otherwise the unit is the
lowercased final character, the value is `int(interval[:-1])` (default on
ValueError), and the result is the value times the unit's multiplier, with
multiplier 3600 for a unit outside m/h/d/w. -/
def parse_interval (interval : Option String) : Int :=
  match interval with
  | none => 3600
  | some s =>
    match s.data.getLast? with
    | none => 3600
    | some c =>
      match pyInt s.data.dropLast with
      | none => 3600
      | some value => value * interval_multiplier c.toLower

/-- Claim C5 counterexample: for the unrecognized unit in "2x" the parser
does not return the 3600-second default: the dictionary lookup only defaults
the multiplier, so the result is 2 * 3600 = 7200. -/
theorem parse_interval_unknown_unit_counterexample :
    parse_interval (some "2x") = 7200 ∧ (7200 : Int) ≠ 3600 := by
  refine ⟨by decide, by decide⟩

/-- Claim C5, amended: the parser returns 1800 for "30m", 7200 for "2h",
86400 for "1d", 604800 for "1w", and 3600 for a missing interval, the empty
string, or a non-integer value prefix; but for a recognized integer prefix v
with an unrecognized unit it returns v * 3600 (the default applies to the
multiplier only), not the 3600 default itself. -/
theorem parse_interval_spec :
    parse_interval none = 3600 ∧
    parse_interval (some "") = 3600 ∧
    parse_interval (some "30m") = 1800 ∧
    parse_interval (some "2h") = 7200 ∧
    parse_interval (some "1d") = 86400 ∧
    parse_interval (some "1w") = 604800 ∧
    (∀ s : String, pyInt s.data.dropLast = none → parse_interval (some s) = 3600) ∧
    (∀ (s : String) (c : Char) (v : Int),
      s.data.getLast? = some c →
      pyInt s.data.dropLast = some v →
      c.toLower ∉ (['m', 'h', 'd', 'w'] : List Char) →
      parse_interval (some s) = v * 3600) := by
  refine ⟨by decide, by decide, by decide, by decide, by decide, by decide, ?_, ?_⟩
  · intro s hv
    simp only [parse_interval]
    cases hl : s.data.getLast? with
    | none => rfl
    | some c => rw [hv]
  · intro s c v hl hv hm
    simp only [parse_interval]
    rw [hl, hv]
    simp only [List.mem_cons, List.not_mem_nil, or_false, not_or] at hm
    obtain ⟨hm1, hm2, hm3, hm4⟩ := hm
    simp [interval_multiplier, hm1, hm2, hm3, hm4]

theorem parse_interval_spec_witness :
    parse_interval (some "xm") = 3600 ∧ parse_interval (some "2x") = 2 * 3600 :=
  ⟨(parse_interval_spec.2.2.2.2.2.2.1) "xm" (by decide),
   (parse_interval_spec.2.2.2.2.2.2.2) "2x" 'x' 2 (by decide) (by decide) (by decide)⟩

/-- Embeds the `job_defaults` configuration of `VisaScheduler.__init__`
(scheduler.py, lines 27-30): missed-run coalescing and the per-job cap on
concurrently running instances handed to the scheduling library. -/
structure JobDefaults where
  coalesce : Bool
  max_instances : Nat
deriving DecidableEq, Repr

def visa_job_defaults : JobDefaults := { coalesce := false, max_instances := 3 }

/-- Modelled from the spec: the admission rule the scheduling library
(APScheduler, a third-party dependency not in this repository) applies when
a trigger fires under the configured job defaults — a firing tick for a job
starts only when fewer than max_instances runs of that job are in flight,
and is skipped otherwise. -/
def tick_admitted (jd : JobDefaults) (in_flight : Nat) : Bool :=
  decide (in_flight < jd.max_instances)

/-- Claim C9 counterexample: under the configured job defaults a tick that
fires while one tick for the same entity is still running IS admitted and
runs concurrently (the cap is 3, not 1), and missed-run coalescing is
disabled — so the claimed drop-while-running behavior does not hold. -/
theorem scheduler_not_single_flight :
    tick_admitted visa_job_defaults 1 = true ∧
    visa_job_defaults.max_instances = 3 ∧
    visa_job_defaults.coalesce = false := by
  decide

/-- Claim C9, amended: the scheduler is configured with coalescing disabled
and max_instances = 3, so up to three ticks of the same entity's job may be
in flight at once: a firing tick is admitted exactly when fewer than three
are running, and dropped only from the fourth concurrent firing on. -/
theorem scheduler_three_in_flight (n : Nat) :
    visa_job_defaults.coalesce = false ∧
    (tick_admitted visa_job_defaults n = true ↔ n < 3) := by
  constructor
  · rfl
  · simp [tick_admitted, visa_job_defaults]

end VisaStatusMonitor
